import Mathlib

/-!
Shallow embedding of `src/sync-manager.ts` (background workspace sync
manager) together with the data model of `src/types.ts`.

The manager's collaborators (`rclone.js`: install check, config
resolution, configured check, ensure-config, `runBisync`) and the file
system touched by `clearStaleLocks` are external capabilities; they are
modelled as oracles supplied to each attempt, including the possibility
that a call throws (modelled as `Except.error msg`, mirroring
`err instanceof Error ? err.message : String(err)`).

Logging is modelled by accumulating `LogEntry` values (the TS `Logger`
has signature `(msg: string) → void`); the presence of the module-level
`currentLogger` reference is tracked as a `Bool`.
-/

namespace WorkspaceSync

/-- String containment helper: `listStartsWith p s` is true iff `p` is an
initial segment of `s` (structural recursion, kernel-reducible). -/
def listStartsWith : List Char → List Char → Bool
  | [], _ => true
  | _ :: _, [] => false
  | p :: ps, c :: cs => p == c && listStartsWith ps cs

/-- Check whether the pattern occurs as a contiguous sublist. -/
def listContainsSub (pat : List Char) : List Char → Bool
  | [] => listStartsWith pat []
  | c :: cs => listStartsWith pat (c :: cs) || listContainsSub pat cs

/-- Model of JavaScript `s.includes(pat)`. -/
def strContains (s pat : String) : Bool := listContainsSub pat.data s.data

/-- Model of JavaScript `s.endsWith(pat)`. -/
def strEndsWith (s pat : String) : Bool :=
  listStartsWith pat.data.reverse s.data.reverse

/-- Provider modes from `src/types.ts` (`WorkspaceSyncProvider`). -/
inductive WorkspaceSyncProvider where
  | off | dropbox | gdrive | onedrive | s3 | custom
deriving DecidableEq, Repr

/-- Conflict resolution policy, from the `conflictResolve` field of
`WorkspaceSyncConfig` in `src/types.ts`. -/
inductive ConflictResolve where
  | newer | local | remote
deriving DecidableEq, Repr

/-- Nested `s3` provider options of `WorkspaceSyncConfig`. -/
structure S3Config where
  endpoint : Option String
  bucket : Option String
  region : Option String
  accessKeyId : Option String
  secretAccessKey : Option String
deriving DecidableEq, Repr

/-- Nested `dropbox` provider options of `WorkspaceSyncConfig`. -/
structure DropboxConfig where
  appFolder : Option Bool
  appKey : Option String
  appSecret : Option String
  token : Option String
deriving DecidableEq, Repr

/-- Nested `gdrive` provider options of `WorkspaceSyncConfig`. -/
structure GdriveConfig where
  token : Option String
  teamDrive : Option String
  rootFolderId : Option String
deriving DecidableEq, Repr

/-- Drive type for the `onedrive` provider options. -/
inductive OnedriveDriveType where
  | personal | business | sharepoint
deriving DecidableEq, Repr

/-- Nested `onedrive` provider options of `WorkspaceSyncConfig`. -/
structure OnedriveConfig where
  token : Option String
  driveId : Option String
  driveType : Option OnedriveDriveType
deriving DecidableEq, Repr

/-- Nested `custom` provider options of `WorkspaceSyncConfig`. -/
structure CustomConfig where
  rcloneType : String
  rcloneOptions : List (String × String)
deriving DecidableEq, Repr

/-- The `WorkspaceSyncConfig` type from `src/types.ts`; optional fields
are `Option`s, mirroring `field?:` in TypeScript. -/
structure WorkspaceSyncConfig where
  provider : Option WorkspaceSyncProvider
  remotePath : Option String
  localPath : Option String
  interval : Option Int
  onSessionStart : Option Bool
  onSessionEnd : Option Bool
  remoteName : Option String
  configPath : Option String
  conflictResolve : Option ConflictResolve
  exclude : Option (List String)
  copySymlinks : Option Bool
  s3 : Option S3Config
  dropbox : Option DropboxConfig
  gdrive : Option GdriveConfig
  onedrive : Option OnedriveConfig
  custom : Option CustomConfig
deriving DecidableEq, Repr

/-- Log severities offered by the `Logger` type in `src/sync-manager.ts`. -/
inductive LogLevel where
  | debug | info | warn | error
deriving DecidableEq, Repr

/-- One emitted log line: severity plus the exact message string. -/
structure LogEntry where
  level : LogLevel
  msg : String
deriving DecidableEq, Repr

/-- The `SyncManagerState` record of `src/sync-manager.ts` lines 27-36.
`timeoutId` keeps only whether a timer handle is set; `lastSyncAt` is an
abstract timestamp (`Date` modelled as `Nat`). -/
structure SyncManagerState where
  timeoutId : Option Unit
  lastSyncAt : Option Nat
  lastSyncOk : Option Bool
  syncCount : Nat
  errorCount : Nat
  hasSuccessfulSync : Bool
  running : Bool
  intervalMs : Int
deriving DecidableEq, Repr

/-- The module-level mutable context of `src/sync-manager.ts`: the
singleton `state` (lines 38-47) plus the four `current*` variables
(lines 49-52). `currentLogger` records presence of a logger reference. -/
structure ManagerCtx where
  state : SyncManagerState
  currentSyncConfig : Option WorkspaceSyncConfig
  currentWorkspaceDir : Option String
  currentStateDir : Option String
  currentLogger : Bool
deriving DecidableEq, Repr

/-- Initial module state (lines 38-52): everything at rest. -/
def initialCtx : ManagerCtx :=
  { state :=
      { timeoutId := none
        lastSyncAt := none
        lastSyncOk := none
        syncCount := 0
        errorCount := 0
        hasSuccessfulSync := false
        running := false
        intervalMs := 0 }
    currentSyncConfig := none
    currentWorkspaceDir := none
    currentStateDir := none
    currentLogger := false }

/-- Result of `resolveSyncConfig` (collaborator in `rclone.js`); the
fields are exactly those read from `resolved` in `doSync`. -/
structure ResolvedConfig where
  configPath : String
  remoteName : String
  remotePath : String
  localPath : String
  conflictResolve : ConflictResolve
  exclude : List String
  copySymlinks : Bool
deriving DecidableEq, Repr

/-- The argument record passed to `runBisync` in `doSync`
(lines 96-105 and 109-118). -/
structure BisyncParams where
  configPath : String
  remoteName : String
  remotePath : String
  localPath : String
  conflictResolve : ConflictResolve
  exclude : List String
  copySymlinks : Bool
  resync : Bool
deriving DecidableEq, Repr

/-- The result record returned by `runBisync`:
`{ok: bool, error?: string, filesTransferred?: number}`. -/
structure BisyncResult where
  ok : Bool
  error : Option String
  filesTransferred : Option Nat
deriving DecidableEq, Repr

/-- Oracle for the file system touched by `clearStaleLocks`:
whether the lock directory exists, the outcome of `readdirSync`
(which may throw), and whether `unlinkSync` succeeds per file. -/
structure LockFs where
  dirExists : Bool
  readdir : Except String (List String)
  unlinkOk : String → Bool

/-- Oracle for one attempt's collaborator behaviour. Each fallible
capability yields `Except.error msg` to model a thrown exception whose
message is `msg`; `now` is the timestamp `new Date()` would produce. -/
structure Collab where
  isRcloneInstalled : Except String Bool
  resolveSyncConfig :
    WorkspaceSyncConfig → String → Option String → Except String ResolvedConfig
  ensureRcloneConfigFromConfig :
    WorkspaceSyncConfig → String → String → Except String Unit
  isRcloneConfigured : String → String → Except String Bool
  runBisync : Nat → BisyncParams → Except String BisyncResult
  now : Nat
  lockFs : LockFs

/-- Model of `clearStaleLocks` (lines 147-163): returns only the log
lines it emits; all file-system failures are swallowed. The per-file
`logger.info` fires exactly when `unlinkSync` did not throw. -/
def clearStaleLocks (fs : LockFs) : List LogEntry :=
  if !fs.dirExists then []
  else
    match fs.readdir with
    | .error _ => []
    | .ok files =>
      (files.filter (fun f => strEndsWith f ".lck")).filterMap fun f =>
        if fs.unlinkOk f then
          some ⟨.info, s!"[workspace-sync] Cleared stale lock: {f}"⟩
        else none

/-- JavaScript template interpolation of `result.error` when it is
`undefined` prints the string "undefined". -/
def errStr : Option String → String
  | none => "undefined"
  | some e => e

/-- Model of `result.error?.includes(pat)` coerced to boolean:
`undefined` is falsy. -/
def errIncludes (e : Option String) (pat : String) : Bool :=
  match e with
  | none => false
  | some s => strContains s pat

/-- Lines 121-137 of `doSync`: record the attempt outcome `result` into
the state and emit the outcome logs (including the stale-lock sweep on a
lock-marked failure). -/
def finishSync (s : SyncManagerState) (c : Collab) (result : BisyncResult) :
    SyncManagerState × List LogEntry :=
  let s1 := { s with lastSyncAt := some c.now, syncCount := s.syncCount + 1 }
  if result.ok then
    ({ s1 with lastSyncOk := some true, hasSuccessfulSync := true },
     [⟨.info, "[workspace-sync] Periodic sync completed"⟩])
  else
    let s2 := { s1 with lastSyncOk := some false, errorCount := s1.errorCount + 1 }
    let warnLog : LogEntry :=
      ⟨.warn, s!"[workspace-sync] Periodic sync failed: {errStr result.error}"⟩
    (s2,
     if errIncludes result.error "lock file found" || errIncludes result.error ".lck" then
       [warnLog, ⟨.info, "[workspace-sync] Clearing lock file for next sync attempt"⟩]
         ++ clearStaleLocks c.lockFs
     else
       [warnLog])

/-- Outcome of the `try` block of `doSync` (lines 74-137), given that
the precondition checks of lines 67-70 passed. On a thrown exception the
error carries the message together with the logs already emitted and the
`runBisync` calls already made before the throw. -/
def doSyncTry (cfg : WorkspaceSyncConfig) (ws : String) (st : Option String)
    (s : SyncManagerState) (c : Collab) :
    Except (String × List LogEntry × List BisyncParams)
      (SyncManagerState × List LogEntry × List BisyncParams) :=
  match c.isRcloneInstalled with
  | .error e => .error (e, [], [])
  | .ok false =>
    .ok (s, [⟨.warn, "[workspace-sync] rclone not installed, skipping periodic sync"⟩], [])
  | .ok true =>
    match c.resolveSyncConfig cfg ws st with
    | .error e => .error (e, [], [])
    | .ok resolved =>
      match c.ensureRcloneConfigFromConfig cfg resolved.configPath resolved.remoteName with
      | .error e => .error (e, [], [])
      | .ok _ =>
        match c.isRcloneConfigured resolved.configPath resolved.remoteName with
        | .error e => .error (e, [], [])
        | .ok false =>
          .ok (s,
            [⟨.warn, s!"[workspace-sync] rclone not configured for \"{resolved.remoteName}\", skipping"⟩],
            [])
        | .ok true =>
          let runLog : LogEntry :=
            ⟨.info, s!"[workspace-sync] Running periodic sync: {resolved.remoteName}:{resolved.remotePath}"⟩
          let needsResync := !s.hasSuccessfulSync
          let p0 : BisyncParams :=
            { configPath := resolved.configPath
              remoteName := resolved.remoteName
              remotePath := resolved.remotePath
              localPath := resolved.localPath
              conflictResolve := resolved.conflictResolve
              exclude := resolved.exclude
              copySymlinks := resolved.copySymlinks
              resync := needsResync }
          match c.runBisync 0 p0 with
          | .error e => .error (e, [runLog], [p0])
          | .ok r0 =>
            if !r0.ok && errIncludes r0.error "--resync" && !needsResync then
              let retryLog : LogEntry :=
                ⟨.info, "[workspace-sync] First-time sync detected, running with --resync"⟩
              let p1 : BisyncParams := { p0 with resync := true }
              match c.runBisync 1 p1 with
              | .error e => .error (e, [runLog, retryLog], [p0, p1])
              | .ok r1 =>
                let fin := finishSync s c r1
                .ok (fin.1, [runLog, retryLog] ++ fin.2, [p0, p1])
            else
              let fin := finishSync s c r0
              .ok (fin.1, [runLog] ++ fin.2, [p0])

/-- Result of one `doSync` attempt: the new module context, the log
lines emitted, and the `runBisync` invocations performed (in order). -/
structure AttemptResult where
  ctx : ManagerCtx
  logs : List LogEntry
  bisyncCalls : List BisyncParams
deriving Repr

/-- Model of `doSync` (lines 66-145). The precondition checks of lines
67-70 return silently; otherwise the `try` body runs and any thrown
exception is caught at the attempt boundary: `lastSyncOk := false`,
`errorCount += 1`, and an error-level log line. The function is total:
no exception ever propagates to the caller. -/
def doSync (ctx : ManagerCtx) (c : Collab) : AttemptResult :=
  match ctx.currentSyncConfig, ctx.currentLogger, ctx.currentWorkspaceDir with
  | some cfg, true, some ws =>
    if cfg.provider = none ∨ cfg.provider = some .off then ⟨ctx, [], []⟩
    else
      match doSyncTry cfg ws ctx.currentStateDir ctx.state c with
      | .ok (s, logs, calls) => ⟨{ ctx with state := s }, logs, calls⟩
      | .error (e, logs, calls) =>
        ⟨{ ctx with state :=
             { ctx.state with
                 lastSyncOk := some false
                 errorCount := ctx.state.errorCount + 1 } },
          logs ++ [⟨.error, s!"[workspace-sync] Periodic sync error: {e}"⟩],
          calls⟩
  | _, _, _ => ⟨ctx, [], []⟩

/-- Model of `stopSyncManager` (lines 210-220): clears `running`,
cancels any pending timer and drops the run context; historical fields
are untouched. -/
def stopSyncManager (ctx : ManagerCtx) : ManagerCtx :=
  { state := { ctx.state with running := false, timeoutId := none }
    currentSyncConfig := none
    currentWorkspaceDir := none
    currentStateDir := none
    currentLogger := false }

/-- Model of `startSyncManager` (lines 165-208). The caller always
supplies a logger, so `currentLogger` becomes `true`. Returns the new
context and the log lines emitted. -/
def startSyncManager (ctx : ManagerCtx) (syncConfig : WorkspaceSyncConfig)
    (workspaceDir stateDir : String) (fs : LockFs) :
    ManagerCtx × List LogEntry :=
  let ctx0 := stopSyncManager ctx
  let ctx1 :=
    { ctx0 with
        currentSyncConfig := some syncConfig
        currentWorkspaceDir := some workspaceDir
        currentStateDir := some stateDir
        currentLogger := true }
  if syncConfig.provider = none ∨ syncConfig.provider = some .off then
    (ctx1, [⟨.info, "[workspace-sync] Workspace sync not configured"⟩])
  else
    let lockLogs := clearStaleLocks fs
    let intervalSeconds := syncConfig.interval.getD 0
    if intervalSeconds ≤ 0 then
      (ctx1, lockLogs ++ [⟨.info, "[workspace-sync] Periodic sync disabled (interval=0)"⟩])
    else
      let effectiveInterval := max intervalSeconds 60
      let clampLogs : List LogEntry :=
        if effectiveInterval ≠ intervalSeconds then
          [⟨.warn, s!"[workspace-sync] Interval increased from {intervalSeconds}s to {effectiveInterval}s (minimum)"⟩]
        else []
      let startLog : LogEntry :=
        ⟨.info, s!"[workspace-sync] Starting periodic sync every {effectiveInterval}s (pure file sync, zero LLM cost)"⟩
      let ctx2 :=
        { ctx1 with state :=
            { ctx1.state with
                running := true
                intervalMs := effectiveInterval * 1000
                timeoutId := some () } }
      (ctx2, lockLogs ++ clampLogs ++ [startLog])

/-- Snapshot returned by `getSyncManagerStatus` (lines 222-236). -/
structure SyncStatus where
  running : Bool
  lastSyncAt : Option Nat
  lastSyncOk : Option Bool
  syncCount : Nat
  errorCount : Nat
deriving DecidableEq, Repr

/-- Model of `getSyncManagerStatus`: a pure read of the state. -/
def getSyncManagerStatus (ctx : ManagerCtx) : SyncStatus :=
  { running := ctx.state.running
    lastSyncAt := ctx.state.lastSyncAt
    lastSyncOk := ctx.state.lastSyncOk
    syncCount := ctx.state.syncCount
    errorCount := ctx.state.errorCount }

/-- Model of `triggerImmediateSync` (lines 238-240): exactly one
`doSync` attempt. -/
def triggerImmediateSync (ctx : ManagerCtx) (c : Collab) : AttemptResult :=
  doSync ctx c

/-- Model of `scheduleNextSync` (lines 54-59): re-arm the one-shot timer
only while `running` with a positive interval. -/
def scheduleNextSync (ctx : ManagerCtx) : ManagerCtx :=
  if !ctx.state.running || ctx.state.intervalMs ≤ 0 then ctx
  else { ctx with state := { ctx.state with timeoutId := some () } }

/-- Model of `runSyncLoop` (lines 61-64): one attempt, then re-arm. -/
def runSyncLoop (ctx : ManagerCtx) (c : Collab) : AttemptResult :=
  let r := doSync ctx c
  { r with ctx := scheduleNextSync r.ctx }

/-- One externally observable operation on the manager. A timer firing
carries the collaborator behaviour of the attempt it starts. -/
inductive Op where
  | start (cfg : WorkspaceSyncConfig) (ws st : String) (fs : LockFs)
  | stop
  | trigger (c : Collab)
  | timerFire (c : Collab)

/-- Apply one operation to the module context. A `timerFire` only has an
effect when a timer is actually pending. -/
def applyOp (ctx : ManagerCtx) : Op → ManagerCtx
  | .start cfg ws st fs => (startSyncManager ctx cfg ws st fs).1
  | .stop => stopSyncManager ctx
  | .trigger c => (triggerImmediateSync ctx c).ctx
  | .timerFire c =>
    if ctx.state.timeoutId.isSome then (runSyncLoop ctx c).ctx else ctx

/-- The context reached from the initial module state by a sequence of
operations: precisely the reachable states of the scheduler. -/
def runOps (ops : List Op) : ManagerCtx := ops.foldl applyOp initialCtx

/-- The collaborator oracle never throws: no capability call yields an
`Except.error`. -/
def Collab.NoThrow (c : Collab) : Prop :=
  (∀ e, c.isRcloneInstalled ≠ .error e) ∧
  (∀ cfg ws st e, c.resolveSyncConfig cfg ws st ≠ .error e) ∧
  (∀ cfg cp rn e, c.ensureRcloneConfigFromConfig cfg cp rn ≠ .error e) ∧
  (∀ cp rn e, c.isRcloneConfigured cp rn ≠ .error e) ∧
  (∀ n p e, c.runBisync n p ≠ .error e)

/-- An operation whose embedded collaborator behaviour (if any) never
throws. -/
def Op.NoThrow : Op → Prop
  | .start _ _ _ _ => True
  | .stop => True
  | .trigger c => c.NoThrow
  | .timerFire c => c.NoThrow

/-! Concrete fixtures used by counterexamples and witnesses. -/

/-- Sample configuration: dropbox provider with the given interval and
all other optional fields absent. -/
def sampleCfg (interval : Option Int) : WorkspaceSyncConfig :=
  { provider := some .dropbox
    remotePath := none
    localPath := none
    interval := interval
    onSessionStart := none
    onSessionEnd := none
    remoteName := none
    configPath := none
    conflictResolve := none
    exclude := none
    copySymlinks := none
    s3 := none
    dropbox := none
    gdrive := none
    onedrive := none
    custom := none }

/-- Sample configuration with the provider field absent. -/
def offCfg : WorkspaceSyncConfig := { sampleCfg none with provider := none }

/-- Lock-directory oracle for an absent directory. -/
def emptyFs : LockFs :=
  { dirExists := false, readdir := .ok [], unlinkOk := fun _ => true }

/-- Sample resolved sync parameters. -/
def sampleResolved : ResolvedConfig :=
  { configPath := "/state/rclone.conf"
    remoteName := "dropbox"
    remotePath := "workspace"
    localPath := "/workspace"
    conflictResolve := .newer
    exclude := []
    copySymlinks := false }

/-- Collaborator oracle where every capability succeeds and `runBisync`
behaves as given. -/
def okCollab (bisync : Nat → BisyncParams → Except String BisyncResult) : Collab :=
  { isRcloneInstalled := .ok true
    resolveSyncConfig := fun _ _ _ => .ok sampleResolved
    ensureRcloneConfigFromConfig := fun _ _ _ => .ok ()
    isRcloneConfigured := fun _ _ => .ok true
    runBisync := bisync
    now := 1000
    lockFs := emptyFs }

/-- Collaborator oracle whose install check throws. -/
def throwCollab : Collab :=
  { okCollab (fun _ _ => .ok ⟨true, none, none⟩) with
      isRcloneInstalled := .error "spawn rclone ENOENT" }

/-- Collaborator oracle reporting the transfer tool as not installed. -/
def notInstalledCollab : Collab :=
  { okCollab (fun _ _ => .ok ⟨true, none, none⟩) with
      isRcloneInstalled := .ok false }

/-- Collaborator oracle reporting the remote as not configured. -/
def notConfiguredCollab : Collab :=
  { okCollab (fun _ _ => .ok ⟨true, none, none⟩) with
      isRcloneConfigured := fun _ _ => .ok false }

/-- Bisync behaviour of spec property P7: the first call fails with the
first-run marker, any later call succeeds. -/
def firstRunBisync : Nat → BisyncParams → Except String BisyncResult
  | 0, _ => .ok ⟨false, some "bisync requires --resync on first run", none⟩
  | _ + 1, _ => .ok ⟨true, none, none⟩

/-- Bisync behaviour that always fails with a non-marker error. -/
def netFailBisync : Nat → BisyncParams → Except String BisyncResult :=
  fun _ _ => .ok ⟨false, some "network timeout", none⟩

/-- Context after a successful `startSyncManager` with interval 300. -/
def ctxAfterStart : ManagerCtx :=
  (startSyncManager initialCtx (sampleCfg (some 300)) "/workspace" "/state" emptyFs).1

/-- Context after one fully successful sync attempt following
`ctxAfterStart` (so `hasSuccessfulSync = true`). -/
def ctxSucceeded : ManagerCtx :=
  (doSync ctxAfterStart (okCollab (fun _ _ => .ok ⟨true, none, none⟩))).ctx

/-! Helper lemmas shared by the claim theorems. -/

/-- Every log line emitted by the stale-lock sweep is info-level. -/
theorem clearStaleLocks_level (fs : LockFs) :
    ∀ p ∈ clearStaleLocks fs, p.level = .info := by
  intro p hp
  unfold clearStaleLocks at hp
  split at hp
  · simp at hp
  · split at hp
    · simp at hp
    · simp only [List.mem_filterMap] at hp
      obtain ⟨f, _, hf⟩ := hp
      split at hf
      · cases hf.symm
        rfl
      · simp at hf

/-- Recording an attempt outcome preserves `errorCount ≤ syncCount`. -/
theorem finishSync_counts (s : SyncManagerState) (c : Collab) (r : BisyncResult)
    (h : s.errorCount ≤ s.syncCount) :
    (finishSync s c r).1.errorCount ≤ (finishSync s c r).1.syncCount := by
  unfold finishSync
  split <;> simp <;> omega

/-- Recording an attempt outcome never resets `hasSuccessfulSync`. -/
theorem finishSync_hasSucc (s : SyncManagerState) (c : Collab) (r : BisyncResult)
    (h : s.hasSuccessfulSync = true) :
    (finishSync s c r).1.hasSuccessfulSync = true := by
  unfold finishSync
  split <;> simp [h]

/-- A non-error outcome of the try body leaves the state unchanged (a
precondition short-circuit) or records exactly one bisync outcome. -/
theorem doSyncTry_ok_state {cfg : WorkspaceSyncConfig} {ws : String}
    {st : Option String} {s : SyncManagerState} {c : Collab}
    {s' : SyncManagerState} {lg : List LogEntry} {cs : List BisyncParams}
    (h : doSyncTry cfg ws st s c = .ok (s', lg, cs)) :
    s' = s ∨ ∃ r, s' = (finishSync s c r).1 := by
  unfold doSyncTry at h
  repeat' (first | split at h | simp only [] at h)
  all_goals simp_all
  all_goals tauto

/-- With a non-throwing collaborator the try body never throws. -/
theorem doSyncTry_noThrow {cfg : WorkspaceSyncConfig} {ws : String}
    {st : Option String} {s : SyncManagerState} {c : Collab}
    (hc : Collab.NoThrow c) :
    ∀ err, doSyncTry cfg ws st s c ≠ .error err := by
  obtain ⟨h1, h2, h3, h4, h5⟩ := hc
  intro err h
  unfold doSyncTry at h
  repeat' (first | split at h | simp only [] at h)
  all_goals simp_all

/-- Starting the manager never touches the historical state fields. -/
theorem startSyncManager_hist (ctx : ManagerCtx) (cfg : WorkspaceSyncConfig)
    (ws st : String) (fs : LockFs) :
    ((startSyncManager ctx cfg ws st fs).1.state.syncCount = ctx.state.syncCount) ∧
    ((startSyncManager ctx cfg ws st fs).1.state.errorCount = ctx.state.errorCount) ∧
    ((startSyncManager ctx cfg ws st fs).1.state.hasSuccessfulSync
      = ctx.state.hasSuccessfulSync) ∧
    ((startSyncManager ctx cfg ws st fs).1.state.lastSyncAt = ctx.state.lastSyncAt) ∧
    ((startSyncManager ctx cfg ws st fs).1.state.lastSyncOk = ctx.state.lastSyncOk) := by
  unfold startSyncManager stopSyncManager
  repeat' (first | split | simp only [])
  all_goals simp

/-- Re-arming the timer never touches the state beyond `timeoutId`. -/
theorem scheduleNextSync_state (ctx : ManagerCtx) :
    (scheduleNextSync ctx).state.syncCount = ctx.state.syncCount ∧
    (scheduleNextSync ctx).state.errorCount = ctx.state.errorCount ∧
    (scheduleNextSync ctx).state.hasSuccessfulSync = ctx.state.hasSuccessfulSync := by
  unfold scheduleNextSync
  split <;> simp

/-- One non-throwing attempt preserves `errorCount ≤ syncCount`. -/
theorem doSync_counts {ctx : ManagerCtx} {c : Collab} (hc : Collab.NoThrow c)
    (h : ctx.state.errorCount ≤ ctx.state.syncCount) :
    (doSync ctx c).ctx.state.errorCount ≤ (doSync ctx c).ctx.state.syncCount := by
  unfold doSync
  split
  case h_2 => exact h
  split
  · exact h
  · split
    · next s' lg cs heq =>
      rcases doSyncTry_ok_state heq with h' | ⟨r, h'⟩
      · simpa [h'] using h
      · simpa [h'] using finishSync_counts _ c r h
    · next e heq => exact absurd heq (doSyncTry_noThrow hc _)

/-- One attempt (throwing or not) never resets `hasSuccessfulSync`. -/
theorem doSync_hasSucc {ctx : ManagerCtx} {c : Collab}
    (h : ctx.state.hasSuccessfulSync = true) :
    (doSync ctx c).ctx.state.hasSuccessfulSync = true := by
  unfold doSync
  split
  case h_2 => exact h
  split
  · exact h
  · split
    · next s' lg cs heq =>
      rcases doSyncTry_ok_state heq with h' | ⟨r, h'⟩
      · simpa [h'] using h
      · simpa [h'] using finishSync_hasSucc _ c r h
    · next e heq => exact h

/-- Any single non-throwing operation preserves `errorCount ≤ syncCount`. -/
theorem applyOp_counts {ctx : ManagerCtx} {op : Op} (hop : op.NoThrow)
    (h : ctx.state.errorCount ≤ ctx.state.syncCount) :
    (applyOp ctx op).state.errorCount ≤ (applyOp ctx op).state.syncCount := by
  cases op with
  | start cfg ws st fs =>
    have hs := startSyncManager_hist ctx cfg ws st fs
    simp only [applyOp]
    omega
  | stop => simpa [applyOp, stopSyncManager] using h
  | trigger c => exact doSync_counts hop h
  | timerFire c =>
    simp only [applyOp]
    split
    · have hs := scheduleNextSync_state (doSync ctx c).ctx
      simp only [runSyncLoop]
      have := doSync_counts hop h
      omega
    · exact h

/-- Any single operation preserves `hasSuccessfulSync = true`. -/
theorem applyOp_hasSucc {ctx : ManagerCtx} {op : Op}
    (h : ctx.state.hasSuccessfulSync = true) :
    (applyOp ctx op).state.hasSuccessfulSync = true := by
  cases op with
  | start cfg ws st fs =>
    have hs := (startSyncManager_hist ctx cfg ws st fs).2.2.1
    simp only [applyOp]
    rw [hs]
    exact h
  | stop => simpa [applyOp, stopSyncManager] using h
  | trigger c => exact doSync_hasSucc h
  | timerFire c =>
    simp only [applyOp]
    split
    · have hs := (scheduleNextSync_state (doSync ctx c).ctx).2.2
      simp only [runSyncLoop]
      rw [hs]
      exact doSync_hasSucc h
    · exact h

/-- Folded form of `applyOp_counts` over an operation sequence. -/
theorem foldl_counts (ops : List Op) :
    ∀ ctx : ManagerCtx, (∀ op ∈ ops, op.NoThrow) →
      ctx.state.errorCount ≤ ctx.state.syncCount →
      (ops.foldl applyOp ctx).state.errorCount
        ≤ (ops.foldl applyOp ctx).state.syncCount := by
  induction ops with
  | nil => intro ctx _ h; simpa using h
  | cons op rest ih =>
    intro ctx hops h
    simp only [List.foldl_cons]
    exact ih _ (fun o ho => hops o (List.mem_cons_of_mem _ ho))
      (applyOp_counts (hops op (List.mem_cons_self _ _)) h)

/-- A collaborator built from `okCollab` never throws as soon as its
bisync behaviour never throws. -/
theorem okCollab_NoThrow (b : Nat → BisyncParams → Except String BisyncResult)
    (hb : ∀ n p e, b n p ≠ .error e) : (okCollab b).NoThrow := by
  refine ⟨fun e => ?_, fun _ _ _ e => ?_, fun _ _ _ e => ?_, fun _ _ e => ?_,
    fun n p e => ?_⟩ <;> simp [okCollab]
  exact hb n p e

/-- Operation sequence exhibiting the broken invariant of claim C1:
start with a zero interval (context stored, loop idle), then one
immediate sync whose install check throws. -/
def c1Ops : List Op :=
  [.start (sampleCfg (some 0)) "/workspace" "/state" emptyFs, .trigger throwCollab]

/-- Operation sequence of non-throwing collaborators: a start, a failed
attempt, a successful timer-driven attempt, and a stop. -/
def c1WitnessOps : List Op :=
  [.start (sampleCfg (some 300)) "/workspace" "/state" emptyFs,
   .trigger (okCollab netFailBisync),
   .timerFire (okCollab (fun _ _ => .ok ⟨true, none, none⟩)),
   .stop]

/-- C1 (counterexample): after a start with interval 0 followed by one
immediate sync whose install check throws, the reachable state has
`syncCount = 0` and `errorCount = 1`, so `syncCount ≥ errorCount` fails:
the catch handler of `doSync` increments `errorCount` without
incrementing `syncCount`. -/
theorem c1_counterexample :
    (runOps c1Ops).state.syncCount = 0 ∧
    (runOps c1Ops).state.errorCount = 1 ∧
    ¬ ((runOps c1Ops).state.syncCount ≥ (runOps c1Ops).state.errorCount) := by
  decide

/-- C1 (amended): at every state reachable by start, stop,
`triggerImmediateSync` and timer-driven attempts whose collaborator
calls never throw, the counters satisfy
`syncCount ≥ errorCount ≥ 0`; an attempt that ends in the exception
handler increments `errorCount` alone and can break the first
inequality. -/
theorem c1_amended (ops : List Op) (h : ∀ op ∈ ops, op.NoThrow) :
    (runOps ops).state.syncCount ≥ (runOps ops).state.errorCount ∧
    (runOps ops).state.errorCount ≥ 0 :=
  ⟨foldl_counts ops initialCtx h (by simp [initialCtx]), Nat.zero_le _⟩

/-- Witness for `c1_amended` at a concrete non-throwing run. -/
theorem c1_amended_witness :
    (∀ op ∈ c1WitnessOps, op.NoThrow) ∧
    ((runOps c1WitnessOps).state.syncCount ≥ (runOps c1WitnessOps).state.errorCount ∧
     (runOps c1WitnessOps).state.errorCount ≥ 0) := by
  have hops : ∀ op ∈ c1WitnessOps, op.NoThrow := by
    intro op hop
    simp only [c1WitnessOps, List.mem_cons, List.not_mem_nil, or_false] at hop
    rcases hop with rfl | rfl | rfl | rfl
    · trivial
    · exact okCollab_NoThrow _ (by intro n p e; simp [netFailBisync])
    · exact okCollab_NoThrow _ (by intro n p e; simp)
    · trivial
  exact ⟨hops, c1_amended c1WitnessOps hops⟩

/-- C7: a start whose provider is unset or off, or whose configured
interval is at most 0, arms no timer and leaves `status().running`
false. -/
theorem c7_no_timer (ctx : ManagerCtx) (cfg : WorkspaceSyncConfig) (ws st : String)
    (fs : LockFs)
    (h : cfg.provider = none ∨ cfg.provider = some .off ∨ cfg.interval.getD 0 ≤ 0) :
    (startSyncManager ctx cfg ws st fs).1.state.timeoutId = none ∧
    (getSyncManagerStatus (startSyncManager ctx cfg ws st fs).1).running = false := by
  simp only [startSyncManager, stopSyncManager, getSyncManagerStatus]
  split
  · exact ⟨rfl, rfl⟩
  · next hp =>
    split
    · exact ⟨rfl, rfl⟩
    · next hi =>
      exfalso
      rcases h with h | h | h
      · exact hp (Or.inl h)
      · exact hp (Or.inr h)
      · exact hi h

/-- Witness for `c7_no_timer` with an absent provider and with a dropbox
provider at interval 0. -/
theorem c7_witness :
    (offCfg.provider = none ∧
      ((startSyncManager initialCtx offCfg "/w" "/s" emptyFs).1.state.timeoutId = none ∧
       (getSyncManagerStatus
          (startSyncManager initialCtx offCfg "/w" "/s" emptyFs).1).running = false)) ∧
    ((sampleCfg (some 0)).interval.getD 0 ≤ 0 ∧
      ((startSyncManager initialCtx (sampleCfg (some 0)) "/w" "/s" emptyFs).1.state.timeoutId
          = none ∧
       (getSyncManagerStatus
          (startSyncManager initialCtx (sampleCfg (some 0)) "/w" "/s" emptyFs).1).running
          = false)) :=
  ⟨⟨rfl, c7_no_timer _ _ _ _ _ (Or.inl rfl)⟩,
   ⟨by decide, c7_no_timer _ _ _ _ _ (Or.inr (Or.inr (by decide)))⟩⟩

/-- C8: `stopSyncManager` (a total function, so it cannot throw) leaves
`running` false, is idempotent, and preserves every historical field. -/
theorem c8_stop_idempotent (ctx : ManagerCtx) :
    (getSyncManagerStatus (stopSyncManager ctx)).running = false ∧
    stopSyncManager (stopSyncManager ctx) = stopSyncManager ctx ∧
    (stopSyncManager ctx).state.syncCount = ctx.state.syncCount ∧
    (stopSyncManager ctx).state.errorCount = ctx.state.errorCount ∧
    (stopSyncManager ctx).state.lastSyncAt = ctx.state.lastSyncAt ∧
    (stopSyncManager ctx).state.lastSyncOk = ctx.state.lastSyncOk ∧
    (stopSyncManager ctx).state.hasSuccessfulSync = ctx.state.hasSuccessfulSync := by
  simp [stopSyncManager, getSyncManagerStatus]

/-- C9: once `hasSuccessfulSync` is true, no operation sequence (failed
attempts, thrown collaborator exceptions, stop, new start) resets it. -/
theorem c9_monotone (ctx : ManagerCtx)
    (h : ctx.state.hasSuccessfulSync = true) (ops : List Op) :
    (ops.foldl applyOp ctx).state.hasSuccessfulSync = true := by
  induction ops generalizing ctx with
  | nil => simpa using h
  | cons op rest ih =>
    simp only [List.foldl_cons]
    exact ih _ (applyOp_hasSucc h)

/-- Operation sequence used by the `c9_monotone` witness: a throwing
attempt, a stop, and a fresh start. -/
def c9WitnessOps : List Op :=
  [.trigger throwCollab, .stop, .start offCfg "/w" "/s" emptyFs]

/-- Witness for `c9_monotone`: a state with one successful sync keeps
the flag across a throwing attempt, a stop and a new start. -/
theorem c9_witness :
    ctxSucceeded.state.hasSuccessfulSync = true ∧
    (c9WitnessOps.foldl applyOp ctxSucceeded).state.hasSuccessfulSync = true :=
  ⟨by decide, c9_monotone ctxSucceeded (by decide) c9WitnessOps⟩

/-- C2 (counterexample): starting from `hasSuccessfulSync = false` with
a capability that fails with the first-run marker on the first call and
succeeds on a second call made with `resync := true`, the attempt makes
exactly one invocation and records failure — not two invocations and
success as the claim states: `needsResync` is already true, so the
retry condition of line 107 is not met. -/
theorem c2_counterexample :
    ctxAfterStart.state.hasSuccessfulSync = false ∧
    ¬ ((doSync ctxAfterStart (okCollab firstRunBisync)).ctx.state.lastSyncOk = some true ∧
       (doSync ctxAfterStart (okCollab firstRunBisync)).bisyncCalls.length = 2) ∧
    (doSync ctxAfterStart (okCollab firstRunBisync)).ctx.state.lastSyncOk = some false ∧
    (doSync ctxAfterStart (okCollab firstRunBisync)).bisyncCalls.length = 1 := by
  decide

/-- C2 (amended): for an attempt that starts with
`hasSuccessfulSync = true` (so the first call is made with
`resync := false`), where the capability fails with the `"--resync"`
marker on the first call and succeeds on the second call made with
`resync := true`, the final recorded outcome is success and the
capability is invoked exactly twice. -/
theorem c2_amended (ctx : ManagerCtx) (c : Collab) (cfg : WorkspaceSyncConfig)
    (ws : String) (r : ResolvedConfig) (err : String) (ft : Option Nat)
    (e1 : Option String) (f1 : Option Nat)
    (hcfg : ctx.currentSyncConfig = some cfg)
    (hlog : ctx.currentLogger = true)
    (hws : ctx.currentWorkspaceDir = some ws)
    (hprov : ¬(cfg.provider = none ∨ cfg.provider = some .off))
    (hsucc : ctx.state.hasSuccessfulSync = true)
    (hinst : c.isRcloneInstalled = .ok true)
    (hres : c.resolveSyncConfig cfg ws ctx.currentStateDir = .ok r)
    (hens : c.ensureRcloneConfigFromConfig cfg r.configPath r.remoteName = .ok ())
    (hconf : c.isRcloneConfigured r.configPath r.remoteName = .ok true)
    (hrun0 : ∀ q, c.runBisync 0 q = .ok ⟨false, some err, ft⟩)
    (herr : strContains err "--resync" = true)
    (hrun1 : ∀ q, c.runBisync 1 q = .ok ⟨true, e1, f1⟩) :
    (doSync ctx c).ctx.state.lastSyncOk = some true ∧
    (doSync ctx c).ctx.state.hasSuccessfulSync = true ∧
    (doSync ctx c).ctx.state.syncCount = ctx.state.syncCount + 1 ∧
    (doSync ctx c).ctx.state.errorCount = ctx.state.errorCount ∧
    ∃ q0 q1, (doSync ctx c).bisyncCalls = [q0, q1] ∧
      q0.resync = false ∧ q1.resync = true := by
  simp only [doSync, hcfg, hlog, hws]
  rw [if_neg hprov]
  simp only [doSyncTry, hinst, hres, hens, hconf, hsucc, hrun0, errIncludes, herr,
    Bool.not_true, Bool.not_false, Bool.and_true, Bool.true_and, Bool.and_false,
    Bool.false_and, if_true, if_false, hrun1, finishSync]
  exact ⟨trivial, trivial, trivial, trivial, _, _, rfl, rfl, rfl⟩

/-- Witness for `c2_amended` at a context with one prior success and the
P7 capability behaviour. -/
theorem c2_amended_witness :
    ctxSucceeded.state.hasSuccessfulSync = true ∧
    strContains "bisync requires --resync on first run" "--resync" = true ∧
    ((doSync ctxSucceeded (okCollab firstRunBisync)).ctx.state.lastSyncOk = some true ∧
     (doSync ctxSucceeded (okCollab firstRunBisync)).ctx.state.hasSuccessfulSync = true ∧
     (doSync ctxSucceeded (okCollab firstRunBisync)).ctx.state.syncCount
       = ctxSucceeded.state.syncCount + 1 ∧
     (doSync ctxSucceeded (okCollab firstRunBisync)).ctx.state.errorCount
       = ctxSucceeded.state.errorCount ∧
     ∃ q0 q1, (doSync ctxSucceeded (okCollab firstRunBisync)).bisyncCalls = [q0, q1] ∧
       q0.resync = false ∧ q1.resync = true) := by
  refine ⟨by decide, by decide, ?_⟩
  exact c2_amended ctxSucceeded (okCollab firstRunBisync) (sampleCfg (some 300))
    "/workspace" sampleResolved "bisync requires --resync on first run" none none none
    rfl rfl rfl (by decide) (by decide) rfl rfl rfl rfl (fun _ => rfl) (by decide)
    (fun _ => rfl)

/-- C3: when the try body of an attempt throws (any collaborator
exception), `doSync` — a total function, so nothing propagates to the
caller — catches it at the attempt boundary, sets `lastSyncOk = false`,
increments `errorCount`, changes nothing else, and logs the error. -/
theorem c3_no_propagation (ctx : ManagerCtx) (c : Collab) (cfg : WorkspaceSyncConfig)
    (ws e : String) (lgs : List LogEntry) (cs : List BisyncParams)
    (hcfg : ctx.currentSyncConfig = some cfg)
    (hlog : ctx.currentLogger = true)
    (hws : ctx.currentWorkspaceDir = some ws)
    (hprov : ¬(cfg.provider = none ∨ cfg.provider = some .off))
    (htry : doSyncTry cfg ws ctx.currentStateDir ctx.state c = .error (e, lgs, cs)) :
    (doSync ctx c).ctx =
      { ctx with state :=
          { ctx.state with lastSyncOk := some false,
                           errorCount := ctx.state.errorCount + 1 } } ∧
    (doSync ctx c).logs = lgs ++ [⟨.error, s!"[workspace-sync] Periodic sync error: {e}"⟩] ∧
    (doSync ctx c).bisyncCalls = cs := by
  simp only [doSync, hcfg, hlog, hws]
  rw [if_neg hprov, htry]
  exact ⟨rfl, rfl, rfl⟩

/-- Witness for `c3_no_propagation`: an attempt whose install check
throws. -/
theorem c3_witness :
    (doSyncTry (sampleCfg (some 300)) "/workspace" ctxAfterStart.currentStateDir
        ctxAfterStart.state throwCollab = .error ("spawn rclone ENOENT", [], [])) ∧
    ((doSync ctxAfterStart throwCollab).ctx =
      { ctxAfterStart with state :=
          { ctxAfterStart.state with lastSyncOk := some false,
                                     errorCount := ctxAfterStart.state.errorCount + 1 } } ∧
     (doSync ctxAfterStart throwCollab).logs =
       [⟨.error, "[workspace-sync] Periodic sync error: spawn rclone ENOENT"⟩] ∧
     (doSync ctxAfterStart throwCollab).bisyncCalls = []) := by
  refine ⟨rfl, ?_⟩
  have h := c3_no_propagation ctxAfterStart throwCollab (sampleCfg (some 300)) "/workspace"
    "spawn rclone ENOENT" [] [] rfl rfl rfl (by decide) rfl
  simpa using h

/-- C4: when `hasSuccessfulSync` is false at the start of the attempt,
the first invocation is already made with `resync := true`; if it fails
with the `"--resync"` marker, no second invocation happens and the
attempt is recorded as failed. -/
theorem c4_no_double_retry (ctx : ManagerCtx) (c : Collab) (cfg : WorkspaceSyncConfig)
    (ws : String) (r : ResolvedConfig) (err : String) (ft : Option Nat)
    (hcfg : ctx.currentSyncConfig = some cfg)
    (hlog : ctx.currentLogger = true)
    (hws : ctx.currentWorkspaceDir = some ws)
    (hprov : ¬(cfg.provider = none ∨ cfg.provider = some .off))
    (hsucc : ctx.state.hasSuccessfulSync = false)
    (hinst : c.isRcloneInstalled = .ok true)
    (hres : c.resolveSyncConfig cfg ws ctx.currentStateDir = .ok r)
    (hens : c.ensureRcloneConfigFromConfig cfg r.configPath r.remoteName = .ok ())
    (hconf : c.isRcloneConfigured r.configPath r.remoteName = .ok true)
    (hrun0 : ∀ q, c.runBisync 0 q = .ok ⟨false, some err, ft⟩)
    (herr : strContains err "--resync" = true) :
    (doSync ctx c).ctx.state.lastSyncOk = some false ∧
    (doSync ctx c).ctx.state.errorCount = ctx.state.errorCount + 1 ∧
    (doSync ctx c).ctx.state.syncCount = ctx.state.syncCount + 1 ∧
    ∃ q0, (doSync ctx c).bisyncCalls = [q0] ∧ q0.resync = true := by
  simp only [doSync, hcfg, hlog, hws]
  rw [if_neg hprov]
  simp only [doSyncTry, hinst, hres, hens, hconf, hsucc, hrun0, errIncludes, herr,
    Bool.not_true, Bool.not_false, Bool.and_true, Bool.true_and, Bool.and_false,
    Bool.false_and, Bool.false_eq_true, if_true, if_false, finishSync]
  exact ⟨trivial, trivial, trivial, _, rfl, rfl⟩

/-- Witness for `c4_no_double_retry`: a fresh context (no prior success)
with the P7 capability behaviour. -/
theorem c4_witness :
    ctxAfterStart.state.hasSuccessfulSync = false ∧
    strContains "bisync requires --resync on first run" "--resync" = true ∧
    ((doSync ctxAfterStart (okCollab firstRunBisync)).ctx.state.lastSyncOk = some false ∧
     (doSync ctxAfterStart (okCollab firstRunBisync)).ctx.state.errorCount
       = ctxAfterStart.state.errorCount + 1 ∧
     (doSync ctxAfterStart (okCollab firstRunBisync)).ctx.state.syncCount
       = ctxAfterStart.state.syncCount + 1 ∧
     ∃ q0, (doSync ctxAfterStart (okCollab firstRunBisync)).bisyncCalls = [q0] ∧
       q0.resync = true) := by
  refine ⟨by decide, by decide, ?_⟩
  exact c4_no_double_retry ctxAfterStart (okCollab firstRunBisync) (sampleCfg (some 300))
    "/workspace" sampleResolved "bisync requires --resync on first run" none
    rfl rfl rfl (by decide) (by decide) rfl rfl rfl rfl (fun _ => rfl) (by decide)

/-- C5: every precondition short-circuit of an attempt — missing run
context, provider unset or off, transfer tool not installed, or remote
not recognized as configured — leaves the entire scheduler state
(`syncCount`, `errorCount`, `lastSyncAt`, `lastSyncOk`,
`hasSuccessfulSync`, and the rest) unchanged. -/
theorem c5_short_circuit (ctx : ManagerCtx) (c : Collab) :
    ((ctx.currentSyncConfig = none ∨ ctx.currentLogger = false ∨
        ctx.currentWorkspaceDir = none) → (doSync ctx c).ctx = ctx) ∧
    (∀ cfg, ctx.currentSyncConfig = some cfg →
        (cfg.provider = none ∨ cfg.provider = some .off) → (doSync ctx c).ctx = ctx) ∧
    (c.isRcloneInstalled = .ok false → (doSync ctx c).ctx.state = ctx.state) ∧
    (∀ cfg ws r, ctx.currentSyncConfig = some cfg → ctx.currentWorkspaceDir = some ws →
        c.isRcloneInstalled = .ok true →
        c.resolveSyncConfig cfg ws ctx.currentStateDir = .ok r →
        c.ensureRcloneConfigFromConfig cfg r.configPath r.remoteName = .ok () →
        c.isRcloneConfigured r.configPath r.remoteName = .ok false →
        (doSync ctx c).ctx.state = ctx.state) := by
  refine ⟨?_, ?_, ?_, ?_⟩
  · intro h
    rcases hx : ctx.currentSyncConfig with _ | cfg <;>
      cases hy : ctx.currentLogger <;>
      rcases hz : ctx.currentWorkspaceDir with _ | ws <;>
      simp_all [doSync]
  · intro cfg hcfg hoff
    cases hy : ctx.currentLogger
    · simp [doSync, hcfg, hy]
    · rcases hz : ctx.currentWorkspaceDir with _ | ws
      · simp [doSync, hcfg, hy, hz]
      · simp only [doSync, hcfg, hy, hz]
        rw [if_pos hoff]
  · intro hinst
    rcases hx : ctx.currentSyncConfig with _ | cfg
    · simp [doSync, hx]
    · cases hy : ctx.currentLogger
      · simp [doSync, hx, hy]
      · rcases hz : ctx.currentWorkspaceDir with _ | ws
        · simp [doSync, hx, hy, hz]
        · simp only [doSync, hx, hy, hz]
          by_cases hoff : cfg.provider = none ∨ cfg.provider = some .off
          · rw [if_pos hoff]
          · rw [if_neg hoff]
            simp only [doSyncTry, hinst]
  · intro cfg ws r hcfg hws hinst hres hens hconf
    cases hy : ctx.currentLogger
    · simp [doSync, hcfg, hy]
    · simp only [doSync, hcfg, hy, hws]
      by_cases hoff : cfg.provider = none ∨ cfg.provider = some .off
      · rw [if_pos hoff]
      · rw [if_neg hoff]
        simp only [doSyncTry, hinst, hres, hens, hconf]

/-- Context after a start call whose provider field is absent. -/
def ctxOff : ManagerCtx := (startSyncManager initialCtx offCfg "/w" "/s" emptyFs).1

/-- Witness for `c5_short_circuit`, exercising all four short-circuit
cases at concrete inputs. -/
theorem c5_witness :
    (initialCtx.currentSyncConfig = none ∧
      (doSync initialCtx throwCollab).ctx = initialCtx) ∧
    (ctxOff.currentSyncConfig = some offCfg ∧ offCfg.provider = none ∧
      (doSync ctxOff throwCollab).ctx = ctxOff) ∧
    (notInstalledCollab.isRcloneInstalled = .ok false ∧
      (doSync ctxAfterStart notInstalledCollab).ctx.state = ctxAfterStart.state) ∧
    (notConfiguredCollab.isRcloneConfigured sampleResolved.configPath
        sampleResolved.remoteName = .ok false ∧
      (doSync ctxAfterStart notConfiguredCollab).ctx.state = ctxAfterStart.state) :=
  ⟨⟨rfl, (c5_short_circuit initialCtx throwCollab).1 (Or.inl rfl)⟩,
   ⟨rfl, rfl, (c5_short_circuit ctxOff throwCollab).2.1 offCfg rfl (Or.inl rfl)⟩,
   ⟨rfl, (c5_short_circuit ctxAfterStart notInstalledCollab).2.2.1 rfl⟩,
   ⟨rfl, (c5_short_circuit ctxAfterStart notConfiguredCollab).2.2.2
      (sampleCfg (some 300)) "/workspace" sampleResolved rfl rfl rfl rfl rfl rfl⟩⟩

/-- C6: a start with a non-off provider and `0 < interval < 60` clamps
`intervalMs` to exactly 60000, logs the clamp warning and runs; with
`interval ≥ 60` it sets `intervalMs = interval * 1000` and logs no
warning at all. -/
theorem c6_interval_clamp (ctx : ManagerCtx) (cfg : WorkspaceSyncConfig)
    (ws st : String) (fs : LockFs) (n : Int)
    (hprov : ¬(cfg.provider = none ∨ cfg.provider = some .off))
    (hn : cfg.interval = some n) :
    (0 < n → n < 60 →
      (startSyncManager ctx cfg ws st fs).1.state.intervalMs = 60000 ∧
      (startSyncManager ctx cfg ws st fs).1.state.running = true ∧
      (⟨.warn, s!"[workspace-sync] Interval increased from {n}s to {(60 : Int)}s (minimum)"⟩
          : LogEntry) ∈ (startSyncManager ctx cfg ws st fs).2) ∧
    (60 ≤ n →
      (startSyncManager ctx cfg ws st fs).1.state.intervalMs = n * 1000 ∧
      (startSyncManager ctx cfg ws st fs).1.state.running = true ∧
      ∀ p ∈ (startSyncManager ctx cfg ws st fs).2, p.level ≠ .warn) := by
  constructor
  · intro h0 h60
    have hmax : max n 60 = 60 := max_eq_right h60.le
    simp only [startSyncManager, stopSyncManager]
    rw [if_neg hprov]
    simp only [hn, Option.getD_some]
    rw [if_neg (by omega : ¬ n ≤ 0)]
    rw [hmax]
    rw [if_pos (by omega : (60 : Int) ≠ n)]
    refine ⟨rfl, rfl, ?_⟩
    simp [List.mem_append]
  · intro h
    have hmax : max n 60 = n := max_eq_left h
    simp only [startSyncManager, stopSyncManager]
    rw [if_neg hprov]
    simp only [hn, Option.getD_some]
    rw [if_neg (by omega : ¬ n ≤ 0)]
    rw [hmax]
    rw [if_neg (by omega : ¬ (n ≠ n))]
    refine ⟨rfl, rfl, ?_⟩
    intro p hp
    simp only [List.append_nil, List.mem_append, List.mem_singleton] at hp
    rcases hp with hp | rfl
    · have := clearStaleLocks_level fs p hp
      simp [this]
    · simp

/-- Witness for `c6_interval_clamp` at intervals 10 and 300, checking
the clamp warning text contains "10s to 60s". -/
theorem c6_witness :
    ((0 : Int) < 10 ∧ (10 : Int) < 60 ∧
     (startSyncManager initialCtx (sampleCfg (some 10)) "/w" "/s" emptyFs).1.state.intervalMs
       = 60000 ∧
     (startSyncManager initialCtx (sampleCfg (some 10)) "/w" "/s" emptyFs).1.state.running
       = true ∧
     (⟨.warn, "[workspace-sync] Interval increased from 10s to 60s (minimum)"⟩ : LogEntry)
       ∈ (startSyncManager initialCtx (sampleCfg (some 10)) "/w" "/s" emptyFs).2 ∧
     strContains "[workspace-sync] Interval increased from 10s to 60s (minimum)"
       "10s to 60s" = true) ∧
    ((60 : Int) ≤ 300 ∧
     (startSyncManager initialCtx (sampleCfg (some 300)) "/w" "/s" emptyFs).1.state.intervalMs
       = 300000 ∧
     (startSyncManager initialCtx (sampleCfg (some 300)) "/w" "/s" emptyFs).1.state.running
       = true ∧
     ∀ p ∈ (startSyncManager initialCtx (sampleCfg (some 300)) "/w" "/s" emptyFs).2,
       p.level ≠ .warn) := by
  have h10 := (c6_interval_clamp initialCtx (sampleCfg (some 10)) "/w" "/s" emptyFs 10
    (by decide) rfl).1 (by decide) (by decide)
  have h300 := (c6_interval_clamp initialCtx (sampleCfg (some 300)) "/w" "/s" emptyFs 300
    (by decide) rfl).2 (by decide)
  refine ⟨⟨by decide, by decide, h10.1, h10.2.1, ?_, by decide⟩,
          ⟨by decide, ?_, h300.2.1, h300.2.2⟩⟩
  · exact h10.2.2
  · rw [h300.1]
    decide

/-- C10: a start with a non-off provider and interval at most 0 stores
the run context while leaving `running` false, so a subsequent
`triggerImmediateSync` performs a full attempt and mutates `syncCount`,
`errorCount`, `lastSyncAt` and `lastSyncOk` while `running` stays
false. -/
theorem c10_trigger_after_disabled (ctx : ManagerCtx) (cfg : WorkspaceSyncConfig)
    (ws st : String) (fs : LockFs) (c : Collab) (r : ResolvedConfig) (err : String)
    (ft : Option Nat)
    (hprov : ¬(cfg.provider = none ∨ cfg.provider = some .off))
    (hint : cfg.interval.getD 0 ≤ 0)
    (hinst : c.isRcloneInstalled = .ok true)
    (hres : c.resolveSyncConfig cfg ws (some st) = .ok r)
    (hens : c.ensureRcloneConfigFromConfig cfg r.configPath r.remoteName = .ok ())
    (hconf : c.isRcloneConfigured r.configPath r.remoteName = .ok true)
    (hrun0 : ∀ q, c.runBisync 0 q = .ok ⟨false, some err, ft⟩)
    (herr : strContains err "--resync" = false) :
    (getSyncManagerStatus (startSyncManager ctx cfg ws st fs).1).running = false ∧
    (startSyncManager ctx cfg ws st fs).1.currentSyncConfig = some cfg ∧
    (doSync (startSyncManager ctx cfg ws st fs).1 c).ctx.state.syncCount
      = ctx.state.syncCount + 1 ∧
    (doSync (startSyncManager ctx cfg ws st fs).1 c).ctx.state.errorCount
      = ctx.state.errorCount + 1 ∧
    (doSync (startSyncManager ctx cfg ws st fs).1 c).ctx.state.lastSyncAt = some c.now ∧
    (doSync (startSyncManager ctx cfg ws st fs).1 c).ctx.state.lastSyncOk = some false ∧
    (doSync (startSyncManager ctx cfg ws st fs).1 c).ctx.state.running = false := by
  have h1 : (startSyncManager ctx cfg ws st fs).1 =
      { state := { ctx.state with running := false, timeoutId := none }
        currentSyncConfig := some cfg
        currentWorkspaceDir := some ws
        currentStateDir := some st
        currentLogger := true } := by
    simp only [startSyncManager, stopSyncManager]
    rw [if_neg hprov]
    rw [if_pos hint]
  rw [h1]
  simp only [doSync, getSyncManagerStatus]
  rw [if_neg hprov]
  simp only [doSyncTry, hinst, hres, hens, hconf, hrun0, errIncludes, herr,
    Bool.not_true, Bool.not_false, Bool.and_true, Bool.true_and, Bool.and_false,
    Bool.false_and, Bool.false_eq_true, if_true, if_false, finishSync]
  exact ⟨trivial, trivial, trivial, trivial, trivial, trivial, trivial⟩

/-- Witness for `c10_trigger_after_disabled`: dropbox provider at
interval 0, then an immediate sync failing with a network error. -/
theorem c10_witness :
    strContains "network timeout" "--resync" = false ∧
    (sampleCfg (some 0)).interval.getD 0 ≤ 0 ∧
    ((getSyncManagerStatus
        (startSyncManager initialCtx (sampleCfg (some 0)) "/workspace" "/state" emptyFs).1).running
        = false ∧
     (startSyncManager initialCtx (sampleCfg (some 0)) "/workspace" "/state"
        emptyFs).1.currentSyncConfig = some (sampleCfg (some 0)) ∧
     (doSync (startSyncManager initialCtx (sampleCfg (some 0)) "/workspace" "/state" emptyFs).1
        (okCollab netFailBisync)).ctx.state.syncCount = initialCtx.state.syncCount + 1 ∧
     (doSync (startSyncManager initialCtx (sampleCfg (some 0)) "/workspace" "/state" emptyFs).1
        (okCollab netFailBisync)).ctx.state.errorCount = initialCtx.state.errorCount + 1 ∧
     (doSync (startSyncManager initialCtx (sampleCfg (some 0)) "/workspace" "/state" emptyFs).1
        (okCollab netFailBisync)).ctx.state.lastSyncAt = some (okCollab netFailBisync).now ∧
     (doSync (startSyncManager initialCtx (sampleCfg (some 0)) "/workspace" "/state" emptyFs).1
        (okCollab netFailBisync)).ctx.state.lastSyncOk = some false ∧
     (doSync (startSyncManager initialCtx (sampleCfg (some 0)) "/workspace" "/state" emptyFs).1
        (okCollab netFailBisync)).ctx.state.running = false) :=
  ⟨by decide, by decide,
   c10_trigger_after_disabled initialCtx (sampleCfg (some 0)) "/workspace" "/state" emptyFs
     (okCollab netFailBisync) sampleResolved "network timeout" none
     (by decide) (by decide) rfl rfl rfl rfl (fun _ => rfl) (by decide)⟩

end WorkspaceSync
